import Mathlib

/-!
Verification of the PCS handoff-queueing simulation (JJLIN1024/PCS_final_project).

The repository contains several near-identical SimPy simulation scripts
(mmcc.py, mmcc_new.py, mmcc_random.py, mmcc_test.py, prototype_test.py,
SimPyTutor.py).  This file gives a shallow embedding of the per-call decision
logic of those scripts: the waiting-list counting functions, the arrival
classification, the per-call state machines for new / priority-1 / priority-2
calls (parameterised over an oracle recording the random draws and the grant
timings the environment produces), the channel-request ownership traces, and
a small interpreter for the one-instant race between a channel grant and a
zero/positive timeout, following the semantics of a SimPy AnyOf condition.

Suffix conventions: `_mmcc` embeds mmcc.py, `_new` embeds mmcc_new.py,
`_test` embeds mmcc_test.py (prototype_test.py is counter-for-counter the
same logic except for the BH increments), `_random` embeds mmcc_random.py.
All virtual times and random draws are modelled as rationals.
-/

namespace PCS

/-- The waiting list (BST.queue) of the priority channel pool, as the list of
the SimPy priority tags of the pending requests, in queue order
(0 = priority-1 handoff, 1 = priority-2 handoff, 3 = new call). -/
abbrev ReqQueue := List ℕ

/-- Number of pending priority-0 requests in the waiting list: the p1Count
accumulator of the CountQueueLength functions. -/
def p1Count (q : ReqQueue) : ℕ := (q.filter (fun p => p = 0)).length

/-- Number of pending priority-1 requests in the waiting list: the p2Count
accumulator of the CountQueueLength functions. -/
def p2Count (q : ReqQueue) : ℕ := (q.filter (fun p => p = 1)).length

/-- CountQueueLength from mmcc.py (lines 274-288): queue `request_type` is
reported full when the corresponding pending-request count is `≥` the queue
size.  The Python function returns None for any other request_type; callers
only pass 1 or 2, and we return false there. -/
def CountQueueLength_mmcc (resourceQueue : ReqQueue) (request_type : ℕ)
    (q1Size q2Size : ℕ) : Bool :=
  if request_type = 1 then decide (p1Count resourceQueue ≥ q1Size)
  else if request_type = 2 then decide (p2Count resourceQueue ≥ q2Size)
  else false

/-- CountQueueLength from mmcc_new.py (lines 292-304), identical in
mmcc_test.py, prototype_test.py and SimPyTutor.py: the queue is reported full
only when the count is strictly `>` the queue size. -/
def CountQueueLength_new (resourceQueue : ReqQueue) (request_type : ℕ)
    (q1Size q2Size : ℕ) : Bool :=
  if request_type = 1 then decide (p1Count resourceQueue > q1Size)
  else if request_type = 2 then decide (p2Count resourceQueue > q2Size)
  else false

/-- CountQueueLength from mmcc_random.py (lines 113-128): encodes the pair of
equality comparisons with the queue sizes into a numeric code 0..3. -/
def CountQueueLength_random (resourceQueue : ReqQueue) (q1Size q2Size : ℕ) : ℕ :=
  if p1Count resourceQueue = q1Size ∧ p2Count resourceQueue = q2Size then 0
  else if p1Count resourceQueue = q1Size ∧ p2Count resourceQueue < q2Size then 1
  else if p1Count resourceQueue < q1Size ∧ p2Count resourceQueue = q2Size then 2
  else 3

/-- Q1-admission decision of a priority-1 call in mmcc.py (line 184):
blocked when CountQueueLength reports Q1 full. -/
def p1Blocked_mmcc (q : ReqQueue) (q1Size q2Size : ℕ) : Bool :=
  CountQueueLength_mmcc q 1 q1Size q2Size

/-- Q1-admission decision of a priority-1 call in mmcc_new.py (line 158),
identical in mmcc_test.py, prototype_test.py and SimPyTutor.py. -/
def p1Blocked_new (q : ReqQueue) (q1Size q2Size : ℕ) : Bool :=
  CountQueueLength_new q 1 q1Size q2Size

/-- Q1-admission decision of a priority-1 call in mmcc_random.py
(lines 165-169): blocked when the code is 0 or 1. -/
def p1Blocked_random (q : ReqQueue) (q1Size q2Size : ℕ) : Bool :=
  let num1 := CountQueueLength_random q q1Size q2Size
  num1 = 0 || num1 = 1

/-- Call classification in the CallSource of mmcc.py (lines 108-120) and
mmcc_random.py: first uniform draw p1 against the handoff-traffic fraction,
second draw p2 against the priority-1 fraction; a second draw strictly above
the fraction yields a priority-1 call. -/
inductive CallType
  | newCall
  | priority1
  | priority2
deriving DecidableEq

def classify_mmcc (handoffFrac prio1Frac p1 p2 : ℚ) : CallType :=
  if p1 > handoffFrac then .newCall
  else if p2 > prio1Frac then .priority1
  else .priority2

/-- Call classification in the CallSource of mmcc_new.py (lines 92-107),
identical in mmcc_test.py, prototype_test.py and Dropping_probability_diff.py:
a second draw strictly above the priority-1 fraction yields a priority-2
call. -/
def classify_new (handoffFrac prio1Frac p1 p2 : ℚ) : CallType :=
  if p1 > handoffFrac then .newCall
  else if p2 > prio1Frac then .priority2
  else .priority1

/-- Increments to the system_performace_data counters made by one call.
`BN` = BN_call (blocked new), `BH` = BH_call (shared handoff-failure
counter), `BP1`/`BP2` = BP1_call/BP2_call, `DP1`/`DP2` = DP1_call/DP2_call,
`P2P1` = P2_P1_call (promotions), `P2P1drop` = P2_P1_drop_call.  Arrival
counters (N_call, H_call, P1_call, P2_call) are accounted at run level. -/
structure Delta where
  BN : ℕ := 0
  BH : ℕ := 0
  BP1 : ℕ := 0
  BP2 : ℕ := 0
  DP1 : ℕ := 0
  DP2 : ℕ := 0
  P2P1 : ℕ := 0
  P2P1drop : ℕ := 0
deriving DecidableEq

def Delta.add (a b : Delta) : Delta :=
  ⟨a.BN + b.BN, a.BH + b.BH, a.BP1 + b.BP1, a.BP2 + b.BP2,
   a.DP1 + b.DP1, a.DP2 + b.DP2, a.P2P1 + b.P2P1, a.P2P1drop + b.P2P1drop⟩

/-- Outcome of a new call (callType 0). -/
inductive NewOutcome
  | served (hold : ℚ)
  | blocked
deriving DecidableEq

/-- Outcome of a priority-1 handoff call (callType 1). -/
inductive P1Outcome
  | servedInstant (hold : ℚ)
  | blockedQ1
  | servedFromQ1 (hold : ℚ)
  | droppedFromQ1
deriving DecidableEq

/-- Outcome of a priority-2 handoff call (callType 2, dynamic queue). -/
inductive P2Outcome
  | servedInstant (hold : ℚ)
  | blockedQ2
  | servedFromQ2 (hold : ℚ)
  | servedFromQ1 (hold : ℚ)
  | droppedFromQ1
  | droppedFromQ2
  | droppedAtPromotion
deriving DecidableEq

/-- Whether a grant of the channel pool exists: a request is granted exactly
when fewer channels are in use than the capacity (spec section 4.2; the
eager re-grant on release keeps the waiting list empty whenever a channel is
free). -/
def requestGrants (capacity inUse : ℕ) : Bool := decide (inUse < capacity)

/- mmcc.py configuration constants (file header). -/
namespace Mmcc
def CHANNEL_HOLDING_T : ℚ := 60
def HANDOFF_HOLDING_T : ℚ := 30
def DWELL_TIME_1 : ℚ := 12.5
def DWELL_TIME_2 : ℚ := 17.5
def TRANSITION_TIME : ℚ := 6
end Mmcc

/- mmcc_random.py configuration constants (file header). -/
namespace MRandom
def CHANNEL_HOLDING_T : ℚ := 60
def HANDOFF_HOLDING_T : ℚ := 30
def DWELL_TIME_1 : ℚ := 7.5
def DWELL_TIME_2 : ℚ := 12.5
def TRANSITION_TIME : ℚ := 6
end MRandom

/-- Oracle for one priority-1 handoff call: the state of the environment the
call observes and the random draws it makes.  `free` records whether a
channel is granted at the arrival instant; `queueAtQ1Check` is BST.queue at
the Q1-full check (including the own still-pending request of the call);
`grantDelay` is the virtual time after the queue join at which the waiting
request would be granted (none if no channel ever reaches it);
`serviceDraw` and `dwellDraw` are the expovariate draws made at arrival
(unused by the mmcc.py variant, which uses the global constants). -/
structure P1Env where
  free : Bool
  queueAtQ1Check : ReqQueue
  grantDelay : Option ℚ
  serviceDraw : ℚ
  dwellDraw : ℚ
  q1Size : ℕ
  q2Size : ℕ

/-- Priority-1 call of mmcc_new.py (lines 143-173).  The same request is kept
for the queued wait; a grant at the same instant as the timer wins because the
code tests req.triggered.  Both the Q1-full block and the dwell-expiry drop
increment only BP1_call; BH_call is never touched in mmcc_new.py. -/
def P1Call_new (e : P1Env) : P1Outcome × Delta :=
  if e.free then (.servedInstant e.serviceDraw, {})
  else if CountQueueLength_new e.queueAtQ1Check 1 e.q1Size e.q2Size then
    (.blockedQ1, { BP1 := 1 })
  else
    match e.grantDelay with
    | some d =>
        if d ≤ e.dwellDraw then (.servedFromQ1 e.serviceDraw, {})
        else (.droppedFromQ1, { BP1 := 1 })
    | none => (.droppedFromQ1, { BP1 := 1 })

/-- Priority-1 call of mmcc_test.py (lines 158-200): same control flow as
mmcc_new.py but the Q1-full block counts BH_call + BP1_call and the dwell
expiry counts DP1_call + BH_call. -/
def P1Call_test (e : P1Env) : P1Outcome × Delta :=
  if e.free then (.servedInstant e.serviceDraw, {})
  else if CountQueueLength_new e.queueAtQ1Check 1 e.q1Size e.q2Size then
    (.blockedQ1, { BH := 1, BP1 := 1 })
  else
    match e.grantDelay with
    | some d =>
        if d ≤ e.dwellDraw then (.servedFromQ1 e.serviceDraw, {})
        else (.droppedFromQ1, { DP1 := 1, BH := 1 })
    | none => (.droppedFromQ1, { DP1 := 1, BH := 1 })

/-- Priority-1 call of mmcc.py (lines 163-201): holding times are the
constants, the dwell timer is the constant DWELL_TIME_1, the queued wait is a
freshly issued second request (see the trace model below), and a grant at the
same instant as a fired timer loses because the code tests membership of req
in the yielded result. -/
def P1Call_mmcc (e : P1Env) : P1Outcome × Delta :=
  if e.free then (.servedInstant Mmcc.HANDOFF_HOLDING_T, {})
  else if CountQueueLength_mmcc e.queueAtQ1Check 1 e.q1Size e.q2Size then
    (.blockedQ1, { BH := 1, BP1 := 1 })
  else
    match e.grantDelay with
    | some d =>
        if d < Mmcc.DWELL_TIME_1 then (.servedFromQ1 Mmcc.HANDOFF_HOLDING_T, {})
        else (.droppedFromQ1, { DP1 := 1, BH := 1 })
    | none => (.droppedFromQ1, { DP1 := 1, BH := 1 })

/-- Oracle for one priority-2 handoff call.  `q2GrantDelay` is the time after
the Q2 join (t0) at which the waiting priority-1-tagged request would be
granted; `queueAtTransition` is BST.queue when the transition timer fires;
`q1GrantDelay` is the time after a promotion at which the promoted priority-0
request would be granted; `serviceDraw`, `waitDraw` (dwell2) and
`transitionDraw` are the expovariate draws made at arrival, and
`promotedDwellDraw` is the fresh expovariate(P1CALL_DROP_RATE) draw that
mmcc_new.py/mmcc_test.py make at promotion time. -/
structure P2Env where
  free : Bool
  queueAtQ2Check : ReqQueue
  q2GrantDelay : Option ℚ
  queueAtTransition : ReqQueue
  q1GrantDelay : Option ℚ
  serviceDraw : ℚ
  waitDraw : ℚ
  transitionDraw : ℚ
  promotedDwellDraw : ℚ
  q1Size : ℕ
  q2Size : ℕ

/-- Transition-timer branch of the priority-2 call of mmcc_new.py
(lines 210-250): when the transition timer fires first the code counts the
pending priority-0 requests; if fewer than Q1_SIZE it cancels the Q2 request,
issues a new priority-0 request and waits a fresh expovariate dwell draw,
holding (when granted) the remaining service time; otherwise it keeps its Q2
request and waits max(waitDraw - transitionDraw, 0) longer, counted BP2_call
only if that also expires. -/
def P2AfterTransition_new (e : P2Env) : P2Outcome × Delta :=
  if p1Count e.queueAtTransition < e.q1Size then
    match e.q1GrantDelay with
    | some d =>
        if d ≤ e.promotedDwellDraw then
          (.servedFromQ1 (max (e.serviceDraw - (e.transitionDraw + d)) 0), {})
        else (.droppedFromQ1, { BP1 := 1 })
    | none => (.droppedFromQ1, { BP1 := 1 })
  else
    match e.q2GrantDelay with
    | some d =>
        if d ≤ e.transitionDraw + max (e.waitDraw - e.transitionDraw) 0 then
          (.servedFromQ2 (max (e.serviceDraw - d) 0), {})
        else (.droppedFromQ2, { BP2 := 1 })
    | none => (.droppedFromQ2, { BP2 := 1 })

/-- Priority-2 call of mmcc_new.py, dynamic queue (lines 175-250). -/
def P2Call_new (e : P2Env) : P2Outcome × Delta :=
  if e.free then (.servedInstant e.serviceDraw, {})
  else if CountQueueLength_new e.queueAtQ2Check 2 e.q1Size e.q2Size then
    (.blockedQ2, { BP2 := 1 })
  else
    match e.q2GrantDelay with
    | some d =>
        if d ≤ e.transitionDraw then
          (.servedFromQ2 (max (e.serviceDraw - d) 0), {})
        else P2AfterTransition_new e
    | none => P2AfterTransition_new e

/-- Transition-timer branch of the priority-2 call of mmcc_test.py
(lines 242-285): same control flow as mmcc_new.py, but a promoted call
dropped from Q1 is counted DP1_call + BH_call and a call dropped from Q2 is
counted DP2_call + BH_call. -/
def P2AfterTransition_test (e : P2Env) : P2Outcome × Delta :=
  if p1Count e.queueAtTransition < e.q1Size then
    match e.q1GrantDelay with
    | some d =>
        if d ≤ e.promotedDwellDraw then
          (.servedFromQ1 (max (e.serviceDraw - (e.transitionDraw + d)) 0), {})
        else (.droppedFromQ1, { DP1 := 1, BH := 1 })
    | none => (.droppedFromQ1, { DP1 := 1, BH := 1 })
  else
    match e.q2GrantDelay with
    | some d =>
        if d ≤ e.transitionDraw + max (e.waitDraw - e.transitionDraw) 0 then
          (.servedFromQ2 (max (e.serviceDraw - d) 0), {})
        else (.droppedFromQ2, { DP2 := 1, BH := 1 })
    | none => (.droppedFromQ2, { DP2 := 1, BH := 1 })

/-- Priority-2 call of mmcc_test.py (lines 202-285). -/
def P2Call_test (e : P2Env) : P2Outcome × Delta :=
  if e.free then (.servedInstant e.serviceDraw, {})
  else if CountQueueLength_new e.queueAtQ2Check 2 e.q1Size e.q2Size then
    (.blockedQ2, { BH := 1, BP2 := 1 })
  else
    match e.q2GrantDelay with
    | some d =>
        if d ≤ e.transitionDraw then
          (.servedFromQ2 (max (e.serviceDraw - d) 0), {})
        else P2AfterTransition_test e
    | none => P2AfterTransition_test e

/-- Transition-timer branch of the priority-2 call of mmcc.py, dynamic queue
(lines 225-251): if CountQueueLength reports Q1 full the call is dropped at
once (P2_P1_drop_call + BH_call); otherwise it issues a priority-0 request
(P2_P1_call), waits the constant DWELL_TIME_2 - TRANSITION_TIME, and on a
grant holds the constant HANDOFF_HOLDING_T (not reduced by queueing). -/
def P2AfterTransition_mmcc (e : P2Env) : P2Outcome × Delta :=
  if CountQueueLength_mmcc e.queueAtTransition 1 e.q1Size e.q2Size then
    (.droppedAtPromotion, { BH := 1, P2P1drop := 1 })
  else
    match e.q1GrantDelay with
    | some d =>
        if d < Mmcc.DWELL_TIME_2 - Mmcc.TRANSITION_TIME then
          (.servedFromQ1 Mmcc.HANDOFF_HOLDING_T, { P2P1 := 1 })
        else (.droppedFromQ1, { P2P1 := 1, DP2 := 1, BH := 1 })
    | none => (.droppedFromQ1, { P2P1 := 1, DP2 := 1, BH := 1 })

/-- Priority-2 call of mmcc.py, dynamic queue (lines 203-251): constant
holding times, and the req-in-result race test (a same-instant grant loses).
The test for a grant inside the transition window, `if req not in result`
(line 231), has no else branch: a call granted from Q2 within the window
runs no code at all, falls out of the with-blocks and releases the channel
at once, so its hold is 0. -/
def P2Call_mmcc (e : P2Env) : P2Outcome × Delta :=
  if e.free then (.servedInstant Mmcc.HANDOFF_HOLDING_T, {})
  else if CountQueueLength_mmcc e.queueAtQ2Check 2 e.q1Size e.q2Size then
    (.blockedQ2, { BH := 1, BP2 := 1 })
  else
    match e.q2GrantDelay with
    | some d =>
        if d < Mmcc.TRANSITION_TIME then
          (.servedFromQ2 0, {})
        else P2AfterTransition_mmcc e
    | none => P2AfterTransition_mmcc e

/-- Transition-timer branch of the priority-2 call of mmcc_random.py
(lines 201-220): admission codes come from its CountQueueLength; a served
promoted call holds a freshly drawn expovariate time `redraw2`. -/
def P2AfterTransition_random (e : P2Env) (redraw2 : ℚ) : P2Outcome × Delta :=
  let num3 := CountQueueLength_random e.queueAtTransition e.q1Size e.q2Size
  if num3 = 0 ∨ num3 = 1 then
    (.droppedAtPromotion, { BH := 1, P2P1drop := 1 })
  else
    match e.q1GrantDelay with
    | some d =>
        if d < MRandom.DWELL_TIME_2 - MRandom.TRANSITION_TIME then
          (.servedFromQ1 redraw2, { P2P1 := 1 })
        else (.droppedFromQ1, { P2P1 := 1, DP2 := 1, BH := 1 })
    | none => (.droppedFromQ1, { P2P1 := 1, DP2 := 1, BH := 1 })

/-- Priority-2 call of mmcc_random.py (lines 182-222): a call granted from Q2
within the transition window only logs and leaves the with-blocks, so it
releases the channel immediately (zero holding time); every other serving
point draws a fresh expovariate holding time (`redraw1` at instant grant,
`redraw2` after promotion). -/
def P2Call_random (e : P2Env) (redraw1 redraw2 : ℚ) : P2Outcome × Delta :=
  if e.free then (.servedInstant redraw1, {})
  else
    let num := CountQueueLength_random e.queueAtQ2Check e.q1Size e.q2Size
    if num = 0 ∨ num = 2 then (.blockedQ2, { BH := 1, BP2 := 1 })
    else
      match e.q2GrantDelay with
      | some d =>
          if d < MRandom.TRANSITION_TIME then (.servedFromQ2 0, {})
          else P2AfterTransition_random e redraw2
      | none => P2AfterTransition_random e redraw2

/-- New call of mmcc.py (lines 143-161): a channel free at arrival is held
for the constant CHANNEL_HOLDING_T; otherwise the request is withdrawn and
BN_call is incremented. -/
def newCall_mmcc (free : Bool) : NewOutcome × Delta :=
  if free then (.served Mmcc.CHANNEL_HOLDING_T, {}) else (.blocked, { BN := 1 })

/-- New call of mmcc_new.py (lines 126-141): the hold is the
expovariate(NEW_CALL_SERVICE_RATE) draw. -/
def newCall_new (free : Bool) (serviceDraw : ℚ) : NewOutcome × Delta :=
  if free then (.served serviceDraw, {}) else (.blocked, { BN := 1 })

/-- New call of mmcc_test.py (lines 139-156): same structure as mmcc_new.py,
the hold is the expovariate(NEWCALL_HOLDING_T) draw. -/
def newCall_test (free : Bool) (serviceDraw : ℚ) : NewOutcome × Delta :=
  if free then (.served serviceDraw, {}) else (.blocked, { BN := 1 })

def NewOutcome.isServed : NewOutcome → Bool
  | .served _ => true
  | .blocked => false

def P1Outcome.isServed : P1Outcome → Bool
  | .servedInstant _ => true
  | .servedFromQ1 _ => true
  | _ => false

def P2Outcome.isServed : P2Outcome → Bool
  | .servedInstant _ => true
  | .servedFromQ2 _ => true
  | .servedFromQ1 _ => true
  | _ => false

/-- Virtual time from arrival to the instant at which a failing priority-1
call of mmcc_new.py is counted: a Q1-full block is counted at the arrival
instant itself (the zero-patience timeout), a drop is counted when the dwell
timer fires, dwellDraw after the queue join. -/
def P1FailureDelay_new (e : P1Env) : Option ℚ :=
  match (P1Call_new e).1 with
  | .blockedQ1 => some 0
  | .droppedFromQ1 => some e.dwellDraw
  | _ => none

/-!
Channel-request ownership traces.  Each code path of a Call generator is
abstracted to the sequence of request operations it performs, in program
order; a with-block exit contributes the implicit cancel (still-pending
request) or release (granted request) of the SimPy Request context manager,
in reverse nesting order.
-/

/-- One operation on channel requests: `acquire id prio` is
BST.request(priority=prio) creating request `id`, `cancel` withdraws a
still-pending request, `release` frees a granted one. -/
inductive ReqOp
  | acquire (id prio : ℕ)
  | cancel (id : ℕ)
  | release (id : ℕ)
deriving DecidableEq

def reqStep (owned : List ℕ) : ReqOp → List ℕ
  | .acquire i _ => i :: owned
  | .cancel i => owned.erase i
  | .release i => owned.erase i

/-- Number of simultaneously owned (pending or held) requests after each
prefix of the trace. -/
def ownedCounts (t : List ReqOp) : List ℕ :=
  (t.foldl (fun st op =>
    let s := reqStep st.1 op
    (s, s.length :: st.2)) (([] : List ℕ), ([] : List ℕ))).2

/-- The largest number of requests the call owns at any instant of the
trace. -/
def maxOwned (t : List ReqOp) : ℕ := (ownedCounts t).foldl max 0

/-- Priorities of the successive requests a trace acquires. -/
def acquirePrios (t : List ReqOp) : List ℕ :=
  t.filterMap (fun op => match op with
    | .acquire _ p => some p
    | _ => none)

/-- mmcc.py priority-1 call, queued then dropped (lines 170-201): the outer
with-request is still pending when the inner with-block issues the second
priority-0 request; both are cancelled only at the with-exits. -/
def mmccP1QueueDropTrace : List ReqOp :=
  [.acquire 1 0, .acquire 2 0, .cancel 2, .cancel 1]

/-- mmcc.py priority-2 call, dynamic queue, promoted then dropped
(lines 209-251): three nested with-requests are pending simultaneously. -/
def mmccP2PromoteDropTrace : List ReqOp :=
  [.acquire 1 1, .acquire 2 1, .acquire 3 0, .cancel 3, .cancel 2, .cancel 1]

/-- mmcc_new.py priority-2 call, promoted then served (lines 210-229): the Q2
request is cancelled before the new priority-0 request is made. -/
def mmccNewP2PromotedServedTrace : List ReqOp :=
  [.acquire 1 1, .cancel 1, .acquire 2 0, .release 2]

/-- mmcc_new.py priority-2 call, promoted then dropped (lines 210-233). -/
def mmccNewP2PromotedDroppedTrace : List ReqOp :=
  [.acquire 1 1, .cancel 1, .acquire 2 0, .cancel 2]

/-- SimPyTutor.py priority-2 call, promoted then dropped (lines 222-242):
the re-issued request is made with priority=1, not priority 0. -/
def tutorP2PromotedDroppedTrace : List ReqOp :=
  [.acquire 1 1, .cancel 1, .acquire 2 1, .cancel 2]

/-- All request traces of mmcc_new.py call paths: new call served/blocked,
priority-1 served instantly / blocked / served from Q1 / dropped, priority-2
served instantly / blocked / served from Q2 (early or late) / dropped from
Q2, and the two promoted paths. -/
def mmccNewTraces : List (List ReqOp) :=
  [[.acquire 1 3, .release 1], [.acquire 1 3, .cancel 1],
   [.acquire 1 0, .release 1], [.acquire 1 0, .cancel 1],
   [.acquire 1 1, .release 1], [.acquire 1 1, .cancel 1],
   mmccNewP2PromotedServedTrace, mmccNewP2PromotedDroppedTrace]

/-!
One-instant race between a channel grant and a timer, following SimPy
semantics of `yield req | env.timeout(...)`.  Events scheduled at time t are
processed in FIFO order.  Processing the timeout (or the request) triggers
the AnyOf condition, which schedules the condition event at the back of the
same-instant queue; processing a release triggers the pending request and
schedules the request event at the back.  When the condition event itself is
processed the waiting process resumes: the condition value contains exactly
the condition operand events already processed at that moment, while
req.triggered reflects every trigger that happened up to the resumption.
-/

inductive Ev
  | timeoutEv
  | releaseEv
  | reqEv
  | condEv
deriving DecidableEq

structure RaceState where
  reqTriggered : Bool
  reqProcessed : Bool
  condTriggered : Bool
  resumed : Bool
  resultHasReq : Bool
  triggeredAtResume : Bool
deriving DecidableEq

def raceInit : RaceState := ⟨false, false, false, false, false, false⟩

def raceStep (s : RaceState) : Ev → RaceState × List Ev
  | .timeoutEv =>
      if s.condTriggered then (s, [])
      else ({ s with condTriggered := true }, [.condEv])
  | .releaseEv => ({ s with reqTriggered := true }, [.reqEv])
  | .reqEv =>
      let s1 := { s with reqProcessed := true }
      if s1.condTriggered then (s1, [])
      else ({ s1 with condTriggered := true }, [.condEv])
  | .condEv =>
      if s.resumed then (s, [])
      else
        let s1 := { s with resumed := true }
        let s2 := { s1 with resultHasReq := s.reqProcessed }
        ({ s2 with triggeredAtResume := s.reqTriggered }, [])

def raceRun : ℕ → RaceState → List Ev → RaceState
  | 0, s, _ => s
  | _, s, [] => s
  | fuel + 1, s, e :: rest =>
      let (s1, new) := raceStep s e
      raceRun fuel s1 (rest ++ new)

def runRace (init : RaceState) (q : List Ev) : RaceState :=
  raceRun (q.length + 4) init q

/-- The race decision of mmcc.py and mmcc_random.py
(`if req in result:`): the call is served exactly when the request event was
already processed when the condition value was built. -/
def servedBy_inResult (s : RaceState) : Bool := s.resultHasReq

/-- The race decision of mmcc_new.py, mmcc_test.py, prototype_test.py and
SimPyTutor.py (`if req.triggered:`): the call is served exactly when the
request was triggered by resumption time. -/
def servedBy_triggered (s : RaceState) : Bool := s.triggeredAtResume

/-- Tie scenario: the timeout is processed first, and a release at the same
virtual instant triggers the request before the process resumes. -/
def tieRace : RaceState := runRace raceInit [.timeoutEv, .releaseEv]

/-- The release is processed strictly before the timeout. -/
def grantFirstRace : RaceState := runRace raceInit [.releaseEv, .timeoutEv]

/-- No grant arrives by the time the process resumes. -/
def noGrantRace : RaceState := runRace raceInit [.timeoutEv]

/-- The request was granted synchronously at creation (channel free): the
request event precedes the timeout in the queue. -/
def instantGrantRace : RaceState :=
  runRace { raceInit with reqTriggered := true } [.reqEv, .timeoutEv]

/-!
Run model for the conservation claim, for the mmcc_test.py variant.
-/

/-- One arriving call together with its oracle. -/
inductive CallEnv
  | newC (free : Bool) (serviceDraw : ℚ)
  | p1C (e : P1Env)
  | p2C (e : P2Env)

/-- Per-run aggregate: arrival totals per class, outcome-derived served /
blocked / dropped counts per class, and the summed counter increments. -/
structure RunStats where
  totalN : ℕ := 0
  totalP1 : ℕ := 0
  totalP2 : ℕ := 0
  servedN : ℕ := 0
  servedP1 : ℕ := 0
  servedP2 : ℕ := 0
  blockedP1 : ℕ := 0
  droppedP1 : ℕ := 0
  blockedP2 : ℕ := 0
  droppedP2Q1 : ℕ := 0
  droppedP2Q2 : ℕ := 0
  delta : Delta := {}

def RunStats.add (a b : RunStats) : RunStats :=
  ⟨a.totalN + b.totalN, a.totalP1 + b.totalP1, a.totalP2 + b.totalP2,
   a.servedN + b.servedN, a.servedP1 + b.servedP1, a.servedP2 + b.servedP2,
   a.blockedP1 + b.blockedP1, a.droppedP1 + b.droppedP1,
   a.blockedP2 + b.blockedP2, a.droppedP2Q1 + b.droppedP2Q1,
   a.droppedP2Q2 + b.droppedP2Q2, a.delta.add b.delta⟩

/-- The contribution of one call to the run statistics, for the mmcc_test.py
variant: the arrival increments its class total (N_call / H_call+P1_call /
H_call+P2_call in the code), the outcome increments one outcome count, and
the counter increments are those of the call function. -/
def callStats_test : CallEnv → RunStats
  | .newC free draw =>
      let r := newCall_test free draw
      { totalN := 1, servedN := if r.1.isServed then 1 else 0, delta := r.2 }
  | .p1C e =>
      let r := P1Call_test e
      { totalP1 := 1,
        servedP1 := if r.1.isServed then 1 else 0,
        blockedP1 := if r.1 = .blockedQ1 then 1 else 0,
        droppedP1 := if r.1 = .droppedFromQ1 then 1 else 0,
        delta := r.2 }
  | .p2C e =>
      let r := P2Call_test e
      { totalP2 := 1,
        servedP2 := if r.1.isServed then 1 else 0,
        blockedP2 := if r.1 = .blockedQ2 then 1 else 0,
        droppedP2Q1 := if r.1 = .droppedFromQ1 then 1 else 0,
        droppedP2Q2 := if r.1 = .droppedFromQ2 then 1 else 0,
        delta := r.2 }

def runStats_test (cs : List CallEnv) : RunStats :=
  cs.foldr (fun c acc => (callStats_test c).add acc) {}

/-- Conservation laws of the mmcc_test.py counters over a run: new calls are
served or blocked; priority-1 calls are served, blocked or dropped;
priority-2 calls are served, blocked, or dropped from Q1 (after promotion)
or from Q2; BH_call counts every handoff failure once; BP1_call/BP2_call
count the per-class blocks, DP2_call the Q2 drops, and DP1_call counts the
priority-1 drops together with the promoted priority-2 drops. -/
def Conserved (S : RunStats) : Prop :=
  S.servedN + S.delta.BN = S.totalN
  ∧ S.servedP1 + S.blockedP1 + S.droppedP1 = S.totalP1
  ∧ S.servedP2 + S.blockedP2 + S.droppedP2Q1 + S.droppedP2Q2 = S.totalP2
  ∧ S.delta.BH + S.servedP1 + S.servedP2 = S.totalP1 + S.totalP2
  ∧ S.delta.BP1 = S.blockedP1
  ∧ S.delta.DP1 = S.droppedP1 + S.droppedP2Q1
  ∧ S.delta.BP2 = S.blockedP2
  ∧ S.delta.DP2 = S.droppedP2Q2

/-- Exactly one terminal bucket for a single call. -/
def OneHot (S : RunStats) : Prop :=
  S.servedN + S.delta.BN + S.servedP1 + S.blockedP1 + S.droppedP1
    + S.servedP2 + S.blockedP2 + S.droppedP2Q1 + S.droppedP2Q2 = 1

end PCS

open PCS

/-- Claim C1 counterexample: the claim states that a priority-1 handoff call
that misses the instant grant is counted BLOCKED if and only if the pending
priority-0 count (own request included) is at or above Q1_SIZE.  With
Q1_SIZE = 5 and exactly five pending priority-0 requests, mmcc_new.py admits
the call (its CountQueueLength uses a strict comparison), so the
claimed if-and-only-if fails on mmcc_new.py. -/
theorem C1_counterexample :
    p1Count [0, 0, 0, 0, 0] ≥ 5 ∧ p1Blocked_new [0, 0, 0, 0, 0] 5 5 = false := by
  decide

/-- Claim C1 (amended): the three CountQueueLength variants decide Q1
admission with three different comparisons.  A priority-1 call that misses
the instant grant is counted BLOCKED exactly when the pending priority-0
count (including the own still-pending request of the call) is `≥ Q1_SIZE` in
mmcc.py, `> Q1_SIZE` in mmcc_new.py / mmcc_test.py / prototype_test.py /
SimPyTutor.py, and `= Q1_SIZE` with the priority-1 pending count `≤ Q2_SIZE`
in mmcc_random.py; otherwise it is admitted to Q1. -/
theorem C1_blocked_iff (q : ReqQueue) (q1Size q2Size : ℕ) :
    (p1Blocked_mmcc q q1Size q2Size = true ↔ q1Size ≤ p1Count q)
    ∧ (p1Blocked_new q q1Size q2Size = true ↔ q1Size < p1Count q)
    ∧ (p1Blocked_random q q1Size q2Size = true ↔
        (p1Count q = q1Size ∧ p2Count q ≤ q2Size)) := by
  refine ⟨?_, ?_, ?_⟩
  · simp [p1Blocked_mmcc, CountQueueLength_mmcc]
  · simp [p1Blocked_new, CountQueueLength_new]
  · simp only [p1Blocked_random, CountQueueLength_random]
    split_ifs with h1 h2 h3 <;> simp <;> omega

/-- Claim C8 counterexample: the claim states that a handoff call is
priority-1 exactly when the second uniform draw is at most the priority-1
fraction.  In mmcc.py (and mmcc_random.py), with both fractions 1/2 and both
draws 1/4, the arrival is a handoff call (1/4 ≤ 1/2) whose second draw is at
most the priority-1 fraction, yet it is classified priority-2. -/
theorem C8_counterexample :
    classify_mmcc (1/2) (1/2) (1/4) (1/4) = CallType.priority2
    ∧ ((1 : ℚ)/4 ≤ 1/2) := by
  constructor
  · simp only [classify_mmcc]
    norm_num
  · norm_num

/-- Claim C8 (amended): every variant classifies the arrival as a handoff
call exactly when the first draw is at most the handoff-traffic fraction.
In mmcc_new.py / mmcc_test.py / prototype_test.py the handoff call is
priority-1 exactly when the second draw is at most the priority-1 fraction,
as the claim states; in mmcc.py / mmcc_random.py the comparison is reversed:
priority-1 exactly when the second draw is strictly above the fraction
(so the expected priority-1 share of handoff traffic there is one minus the
configured fraction). -/
theorem C8_classification (hf pf p1 p2 : ℚ) :
    (classify_new hf pf p1 p2 = CallType.newCall ↔ hf < p1)
    ∧ (classify_new hf pf p1 p2 = CallType.priority1 ↔ (p1 ≤ hf ∧ p2 ≤ pf))
    ∧ (classify_mmcc hf pf p1 p2 = CallType.newCall ↔ hf < p1)
    ∧ (classify_mmcc hf pf p1 p2 = CallType.priority1 ↔ (p1 ≤ hf ∧ pf < p2)) := by
  simp only [classify_new, classify_mmcc]
  split_ifs with h1 h2 <;> simp_all [not_lt]

/-- Claim C4 counterexample: the claim states that every Call owns at most
one ChannelRequest at every instant.  In mmcc.py the queued waits are
freshly issued nested with-requests while the initial request is still
pending, so a queued priority-1 call owns two requests simultaneously and a
promoted priority-2 call owns three. -/
theorem C4_counterexample :
    maxOwned mmccP1QueueDropTrace = 2 ∧ maxOwned mmccP2PromoteDropTrace = 3 := by
  decide

/-- Claim C4 (amended): in mmcc_new.py every call path owns at most one
request at a time, and a promoted call cancels its old Q2 request before the
new priority-0 request is created; in mmcc.py the re-issued queued requests
are nested inside the still-pending initial request, so a queued priority-1
call owns two requests and a promoted priority-2 call owns three. -/
theorem C4_single_request :
    (mmccNewTraces.all fun t => maxOwned t ≤ 1) = true
    ∧ acquirePrios mmccNewP2PromotedServedTrace = [1, 0]
    ∧ 2 ≤ maxOwned mmccP1QueueDropTrace
    ∧ 3 ≤ maxOwned mmccP2PromoteDropTrace := by
  decide

/-- Claim C6 counterexample: the claim states that when the grant and the
timeout are schedulable at the same virtual instant the grant wins.  In the
tie scenario (timeout processed first, a release at the same instant) the
request is triggered by the time the process resumes, yet the
req-in-result decision of mmcc.py counts the call as failed. -/
theorem C6_counterexample :
    tieRace.triggeredAtResume = true ∧ servedBy_inResult tieRace = false := by
  decide

/-- Claim C6 (amended): when the two events are at distinct instants the
earlier one decides the outcome in every variant; when both are schedulable
at the same instant the grant wins in the variants deciding by
req.triggered (mmcc_new.py, mmcc_test.py, prototype_test.py, SimPyTutor.py)
and loses in the variants deciding by membership of req in the yielded
result (mmcc.py, mmcc_random.py).  Either decision selects exactly one
branch, so no call is counted both served and dropped. -/
theorem C6_race_resolution :
    (servedBy_inResult grantFirstRace = true ∧ servedBy_triggered grantFirstRace = true)
    ∧ (servedBy_inResult instantGrantRace = true
        ∧ servedBy_triggered instantGrantRace = true)
    ∧ (servedBy_inResult noGrantRace = false ∧ servedBy_triggered noGrantRace = false
        ∧ noGrantRace.triggeredAtResume = false)
    ∧ (servedBy_triggered tieRace = true ∧ servedBy_inResult tieRace = false) := by
  decide

/-- Claim C7 counterexample: the claim states that a new call granted a
channel holds it for an exponential service duration.  In mmcc.py the hold
is the constant CHANNEL_HOLDING_T = 60 regardless of any draw, so for a
call whose service draw is 7 the claimed hold differs from the actual
one. -/
theorem C7_counterexample :
    newCall_mmcc true = (NewOutcome.served 60, {})
    ∧ (newCall_new true 7).1 = NewOutcome.served 7
    ∧ Mmcc.CHANNEL_HOLDING_T ≠ (7 : ℚ) := by
  refine ⟨rfl, rfl, ?_⟩
  norm_num [Mmcc.CHANNEL_HOLDING_T]

/-- Claim C7 (amended): a new call is served exactly when a channel is free
at its arrival instant, and otherwise the request is withdrawn and BN_call
is incremented — it never waits.  The hold of a served new call is the
exponential service draw in mmcc_new.py, but the constant CHANNEL_HOLDING_T
in mmcc.py. -/
theorem C7_new_call (free : Bool) (draw : ℚ) :
    ((newCall_new free draw).1 = NewOutcome.blocked ↔ free = false)
    ∧ ((newCall_new free draw).2.BN = 1 ↔ free = false)
    ∧ (newCall_new true draw).1 = NewOutcome.served draw
    ∧ ((newCall_mmcc free).1 = NewOutcome.blocked ↔ free = false)
    ∧ (newCall_mmcc true).1 = NewOutcome.served Mmcc.CHANNEL_HOLDING_T := by
  cases free <;> simp [newCall_new, newCall_mmcc]

/-- Claim C3 counterexample: the claim states that each handoff failure also
increments the shared handoff counter exactly once, and that
servedP1 + blockedP1 + droppedP1 = totalP1.  In mmcc_new.py a Q1-full
blocked priority-1 call increments only BP1_call and leaves BH_call at 0;
and in mmcc_test.py a promoted priority-2 call dropped from Q1 increments
DP1_call, so DP1_call does not count priority-1 calls only. -/
theorem C3_counterexample :
    (P1Call_new ⟨false, [0, 0], none, 1, 1, 1, 1⟩).2 = { BP1 := 1 }
    ∧ (P1Call_new ⟨false, [0, 0], none, 1, 1, 1, 1⟩).2.BH = 0
    ∧ (P2AfterTransition_test ⟨false, [], none, [], none, 1, 1, 1, 1, 1, 1⟩).2
        = { DP1 := 1, BH := 1 } := by
  refine ⟨rfl, rfl, rfl⟩

/-- Claim C9 counterexample: the claim states that with capacity C = 0 every
call of every class is blocked or dropped immediately.  No request is ever
granted at C = 0, but a priority-1 call admitted to Q1 (its own pending
request is the only priority-0 one) is dropped only when its dwell timer
fires, 5 time units after arrival — not immediately. -/
theorem C9_counterexample :
    requestGrants 0 0 = false
    ∧ P1FailureDelay_new ⟨false, [0], none, 1, 5, 5, 5⟩ = some 5
    ∧ (5 : ℚ) ≠ 0 := by
  refine ⟨by decide, rfl, by norm_num⟩

/-- Claim C9 (amended): with capacity 0 no request is ever granted, so every
call ends blocked or dropped and none is served; new calls are blocked at
their arrival instant, but an admitted priority-1 call is dropped only when
its dwell timer fires (delay dwellDraw, not 0), and a priority-2 call ends
blocked or dropped from Q1/Q2 after its timers. -/
theorem C9_capacity_zero :
    (∀ inUse, requestGrants 0 inUse = false)
    ∧ (∀ draw : ℚ, (newCall_new false draw).1 = NewOutcome.blocked)
    ∧ (∀ e : P1Env, e.free = false → e.grantDelay = none →
        (P1Call_new e).1.isServed = false
        ∧ (P1FailureDelay_new e = some 0 ∨ P1FailureDelay_new e = some e.dwellDraw))
    ∧ (∀ e : P2Env, e.free = false → e.q2GrantDelay = none → e.q1GrantDelay = none →
        (P2Call_new e).1.isServed = false) := by
  refine ⟨fun u => by simp [requestGrants], fun draw => by simp [newCall_new], ?_, ?_⟩
  · intro e hf hg
    cases hq : CountQueueLength_new e.queueAtQ1Check 1 e.q1Size e.q2Size <;>
      simp [P1Call_new, P1FailureDelay_new, hf, hg, hq, P1Outcome.isServed]
  · intro e hf h2 h1
    cases hq : CountQueueLength_new e.queueAtQ2Check 2 e.q1Size e.q2Size
    · by_cases hp : p1Count e.queueAtTransition < e.q1Size <;>
        simp [P2Call_new, P2AfterTransition_new, hf, hq, h2, h1, hp, P2Outcome.isServed]
    · simp [P2Call_new, hf, hq, P2Outcome.isServed]

theorem C9_capacity_zero_witness :
    (P1Call_new ⟨false, [0], none, 1, 5, 5, 5⟩).1.isServed = false
    ∧ (P2Call_new ⟨false, [1], none, [], none, 1, 1, 1, 1, 5, 5⟩).1.isServed = false :=
  ⟨(C9_capacity_zero.2.2.1 ⟨false, [0], none, 1, 5, 5, 5⟩ rfl rfl).1,
   C9_capacity_zero.2.2.2 ⟨false, [1], none, [], none, 1, 1, 1, 1, 5, 5⟩ rfl rfl rfl⟩

/-- Claim C10: a priority-1 handoff call granted a channel after waiting in
Q1 holds it for the full service duration drawn at arrival — its queueing
time does not reduce the hold — while a queued priority-2 call granted from
Q2 holds the channel for max(service − queueing time, 0), strictly less than
the full draw whenever both are positive (mmcc_new.py and mmcc_test.py). -/
theorem C10_hold_durations :
    (∀ (e : P1Env) (d : ℚ), e.free = false →
        CountQueueLength_new e.queueAtQ1Check 1 e.q1Size e.q2Size = false →
        e.grantDelay = some d → d ≤ e.dwellDraw →
        (P1Call_new e).1 = P1Outcome.servedFromQ1 e.serviceDraw
        ∧ (P1Call_test e).1 = P1Outcome.servedFromQ1 e.serviceDraw)
    ∧ (∀ (e : P2Env) (d : ℚ), e.free = false →
        CountQueueLength_new e.queueAtQ2Check 2 e.q1Size e.q2Size = false →
        e.q2GrantDelay = some d → d ≤ e.transitionDraw →
        (P2Call_new e).1 = P2Outcome.servedFromQ2 (max (e.serviceDraw - d) 0)
        ∧ (P2Call_test e).1 = P2Outcome.servedFromQ2 (max (e.serviceDraw - d) 0))
    ∧ (∀ s d : ℚ, 0 < d → 0 < s → max (s - d) 0 < s) := by
  refine ⟨?_, ?_, ?_⟩
  · intro e d hf hq hd hle
    constructor <;> simp [P1Call_new, P1Call_test, hf, hq, hd, hle]
  · intro e d hf hq hd hle
    constructor <;> simp [P2Call_new, P2Call_test, hf, hq, hd, hle]
  · intro s d hd hs
    rcases le_or_lt (s - d) 0 with h | h
    · simpa [max_eq_right h] using hs
    · rw [max_eq_left h.le]
      linarith

theorem C10_hold_durations_witness :
    (P1Call_new ⟨false, [0], some 2, 7, 5, 5, 5⟩).1 = P1Outcome.servedFromQ1 7
    ∧ (P2Call_new ⟨false, [1], some 2, [], none, 7, 10, 3, 1, 5, 5⟩).1
        = P2Outcome.servedFromQ2 (max ((7 : ℚ) - 2) 0)
    ∧ max ((7 : ℚ) - 2) 0 < 7 :=
  ⟨(C10_hold_durations.1 ⟨false, [0], some 2, 7, 5, 5, 5⟩ 2 rfl rfl rfl
      (by norm_num)).1,
   (C10_hold_durations.2.1 ⟨false, [1], some 2, [], none, 7, 10, 3, 1, 5, 5⟩ 2 rfl rfl
      rfl (by norm_num)).1,
   by
    have h := C10_hold_durations.2.2 7 2 (by norm_num) (by norm_num)
    linarith⟩

/-- Claim C5 counterexample: the claim states that a queued priority-2 call
granted a channel holds it for max(service − time queued, 0).  In
mmcc_random.py a priority-2 call granted from Q2 (here after 2 time units,
with service draw 7) merely logs and leaves the with-blocks, holding the
channel for 0 instead of the claimed max(7 − 2, 0) = 5. -/
theorem C5_counterexample :
    P2Call_random ⟨false, [1], some 2, [], none, 7, 10, 3, 1, 5, 5⟩ 9 9
      = (P2Outcome.servedFromQ2 0, {})
    ∧ max ((7 : ℚ) - 2) 0 = 5
    ∧ (0 : ℚ) ≠ 5 := by
  refine ⟨?_, ?_, by norm_num⟩
  · simp [P2Call_random, CountQueueLength_random, p1Count, p2Count,
      MRandom.TRANSITION_TIME]
    norm_num
  · rw [max_eq_left (by norm_num)]
    norm_num

/-- Claim C5 (amended): in mmcc_new.py (and mmcc_test.py) the service
duration of a handoff call is the single draw made at arrival: an instantly
served call holds exactly that draw, a call granted from Q2 after d time
units holds max(draw − d, 0), and a promoted call granted d time units after
its transition holds max(draw − (transition + d), 0).  In mmcc.py the
instantly served call and the promoted served call hold the constant
HANDOFF_HOLDING_T, unreduced by queueing, while a call granted from Q2
within the transition window runs no serving code at all and holds the
channel for 0; in mmcc_random.py a call granted from Q2 likewise holds 0
and the other serving points use freshly drawn expovariate times. -/
theorem C5_service_draws (e : P2Env) (r1 r2 : ℚ) :
    (e.free = true → (P2Call_new e).1 = P2Outcome.servedInstant e.serviceDraw)
    ∧ (∀ d, e.free = false →
        CountQueueLength_new e.queueAtQ2Check 2 e.q1Size e.q2Size = false →
        e.q2GrantDelay = some d → d ≤ e.transitionDraw →
        (P2Call_new e).1 = P2Outcome.servedFromQ2 (max (e.serviceDraw - d) 0))
    ∧ (∀ d, p1Count e.queueAtTransition < e.q1Size →
        e.q1GrantDelay = some d → d ≤ e.promotedDwellDraw →
        (P2AfterTransition_new e).1
          = P2Outcome.servedFromQ1 (max (e.serviceDraw - (e.transitionDraw + d)) 0))
    ∧ (e.free = true →
        P2Call_mmcc e = (P2Outcome.servedInstant Mmcc.HANDOFF_HOLDING_T, ({} : Delta)))
    ∧ (∀ d, e.free = false →
        CountQueueLength_mmcc e.queueAtQ2Check 2 e.q1Size e.q2Size = false →
        e.q2GrantDelay = some d → d < Mmcc.TRANSITION_TIME →
        P2Call_mmcc e = (P2Outcome.servedFromQ2 0, ({} : Delta)))
    ∧ (∀ d1 d2, e.free = false →
        CountQueueLength_mmcc e.queueAtQ2Check 2 e.q1Size e.q2Size = false →
        e.q2GrantDelay = some d2 → ¬ d2 < Mmcc.TRANSITION_TIME →
        CountQueueLength_mmcc e.queueAtTransition 1 e.q1Size e.q2Size = false →
        e.q1GrantDelay = some d1 → d1 < Mmcc.DWELL_TIME_2 - Mmcc.TRANSITION_TIME →
        P2Call_mmcc e
          = (P2Outcome.servedFromQ1 Mmcc.HANDOFF_HOLDING_T, { P2P1 := 1 }))
    ∧ (e.free = true → (P2Call_random e r1 r2).1 = P2Outcome.servedInstant r1)
    ∧ (∀ d, e.free = false →
        CountQueueLength_random e.queueAtQ2Check e.q1Size e.q2Size = 3 →
        e.q2GrantDelay = some d → d < MRandom.TRANSITION_TIME →
        (P2Call_random e r1 r2).1 = P2Outcome.servedFromQ2 0) := by
  refine ⟨?_, ?_, ?_, ?_, ?_, ?_, ?_, ?_⟩
  · intro hf
    simp [P2Call_new, hf]
  · intro d hf hq hd hle
    simp [P2Call_new, hf, hq, hd, hle]
  · intro d hp hd hle
    simp [P2AfterTransition_new, hp, hd, hle]
  · intro hf
    simp [P2Call_mmcc, hf]
  · intro d hf hq hd hlt
    simp [P2Call_mmcc, hf, hq, hd, hlt]
  · intro d1 d2 hf hq hd2 hlt2 hq1 hd1 hlt1
    simp [P2Call_mmcc, P2AfterTransition_mmcc, hf, hq, hd2, hlt2, hq1, hd1, hlt1]
  · intro hf
    simp [P2Call_random, hf]
  · intro d hf hq hd hlt
    simp [P2Call_random, hf, hq, hd, hlt]

theorem C5_service_draws_witness :
    (P2Call_new ⟨false, [1], some 2, [], none, 7, 10, 3, 1, 5, 5⟩).1
      = P2Outcome.servedFromQ2 (max ((7 : ℚ) - 2) 0)
    ∧ P2Call_mmcc ⟨false, [1], some 2, [], none, 7, 10, 3, 1, 5, 5⟩
      = (P2Outcome.servedFromQ2 0, ({} : Delta))
    ∧ (P2Call_random ⟨false, [1], some 2, [], none, 7, 10, 3, 1, 5, 5⟩ 9 9).1
      = P2Outcome.servedFromQ2 0 :=
  ⟨(C5_service_draws ⟨false, [1], some 2, [], none, 7, 10, 3, 1, 5, 5⟩ 9 9).2.1 2
    rfl rfl rfl (by norm_num),
   (C5_service_draws ⟨false, [1], some 2, [], none, 7, 10, 3, 1, 5, 5⟩ 9 9).2.2.2.2.1 2
    rfl rfl rfl (by norm_num [Mmcc.TRANSITION_TIME]),
   (C5_service_draws ⟨false, [1], some 2, [], none, 7, 10, 3, 1, 5, 5⟩ 9 9).2.2.2.2.2.2.2 2
    rfl rfl rfl (by norm_num [MRandom.TRANSITION_TIME])⟩

/-- Claim C2 counterexample: the claim states that a priority-2 call whose
transition timer fires while the pending priority-0 count is at Q1_SIZE or
more withdraws its request and is counted DROPPED.  In mmcc_new.py such a
call (five pending priority-0 requests, Q1_SIZE = 5) keeps its Q2 request,
waits the remaining dwell, and here is served from Q2 — it is neither
withdrawn nor counted dropped. -/
theorem C2_counterexample :
    P2Call_new ⟨false, [1], some 5, [0, 0, 0, 0, 0, 1], none, 7, 10, 3, 1, 5, 5⟩
      = (P2Outcome.servedFromQ2 (max ((7 : ℚ) - 5) 0), {})
    ∧ 5 ≤ p1Count [0, 0, 0, 0, 0, 1]
    ∧ P2Outcome.servedFromQ2 (max ((7 : ℚ) - 5) 0) ≠ P2Outcome.droppedAtPromotion := by
  refine ⟨?_, by decide, by simp⟩
  simp [P2Call_new, P2AfterTransition_new, CountQueueLength_new, p1Count, p2Count]
  norm_num

/-- Claim C2 (amended): in mmcc_new.py, when the transition timer of a
priority-2 call fires first, the pending priority-0 count decides what
happens.  If it is below Q1_SIZE the call withdraws its Q2 request, issues a
new priority-0 request (SimPyTutor.py instead re-issues it at priority 1)
and waits a fresh exponential priority-1 dwell draw — not dwell2 −
transition; if granted after d it holds max(service − (transition + d), 0),
else it is counted in BP1_call.  If the count is at or above Q1_SIZE the
call is not dropped at once: it keeps its Q2 request, waits the remaining
dwell max(dwell2 − transition, 0), and only counts BP2_call if that also
expires. -/
theorem C2_transition_behavior (e : P2Env) :
    (p1Count e.queueAtTransition < e.q1Size →
      (∀ d, e.q1GrantDelay = some d → d ≤ e.promotedDwellDraw →
        (P2AfterTransition_new e)
          = (P2Outcome.servedFromQ1 (max (e.serviceDraw - (e.transitionDraw + d)) 0),
             ({} : Delta)))
      ∧ ((P2AfterTransition_new e).1 = P2Outcome.droppedFromQ1 ↔
          ∀ d, e.q1GrantDelay = some d → e.promotedDwellDraw < d)
      ∧ ((P2AfterTransition_new e).1 = P2Outcome.droppedFromQ1 →
          (P2AfterTransition_new e).2 = { BP1 := 1 }))
    ∧ (e.q1Size ≤ p1Count e.queueAtTransition →
      (P2AfterTransition_new e).1 ≠ P2Outcome.droppedAtPromotion
      ∧ (P2AfterTransition_new e).2.P2P1drop = 0
      ∧ ((P2AfterTransition_new e).1 = P2Outcome.droppedFromQ2 ↔
          ∀ d, e.q2GrantDelay = some d →
            e.transitionDraw + max (e.waitDraw - e.transitionDraw) 0 < d))
    ∧ acquirePrios mmccNewP2PromotedServedTrace = [1, 0]
    ∧ acquirePrios tutorP2PromotedDroppedTrace = [1, 1] := by
  refine ⟨?_, ?_, by decide, by decide⟩
  · intro hp
    refine ⟨?_, ?_, ?_⟩
    · intro d hd hle
      simp [P2AfterTransition_new, hp, hd, hle]
    · rcases hd : e.q1GrantDelay with _ | d
      · simp [P2AfterTransition_new, hp, hd]
      · by_cases hle : d ≤ e.promotedDwellDraw
        · simp only [P2AfterTransition_new, if_pos hp, hd, if_pos hle]
          refine iff_of_false (by simp) ?_
          intro hall
          exact absurd (hall d rfl) (not_lt.2 hle)
        · simp only [P2AfterTransition_new, if_pos hp, hd, if_neg hle]
          refine iff_of_true trivial ?_
          intro d1 hd1
          cases hd1
          exact lt_of_not_le hle
    · intro hdrop
      rcases hd : e.q1GrantDelay with _ | d
      · simp [P2AfterTransition_new, hp, hd]
      · by_cases hle : d ≤ e.promotedDwellDraw
        · simp [P2AfterTransition_new, hp, hd, hle] at hdrop
        · simp [P2AfterTransition_new, hp, hd, hle]
  · intro hp
    have hp1 : ¬ p1Count e.queueAtTransition < e.q1Size := not_lt.2 hp
    refine ⟨?_, ?_, ?_⟩
    · rcases hd : e.q2GrantDelay with _ | d
      · simp [P2AfterTransition_new, hp1, hd]
      · by_cases hle : d ≤ e.transitionDraw + max (e.waitDraw - e.transitionDraw) 0 <;>
          simp [P2AfterTransition_new, hp1, hd, hle]
    · rcases hd : e.q2GrantDelay with _ | d
      · simp [P2AfterTransition_new, hp1, hd]
      · by_cases hle : d ≤ e.transitionDraw + max (e.waitDraw - e.transitionDraw) 0 <;>
          simp [P2AfterTransition_new, hp1, hd, hle]
    · rcases hd : e.q2GrantDelay with _ | d
      · simp [P2AfterTransition_new, hp1, hd]
      · by_cases hle : d ≤ e.transitionDraw + max (e.waitDraw - e.transitionDraw) 0
        · simp only [P2AfterTransition_new, if_neg hp1, hd, if_pos hle]
          refine iff_of_false (by simp) ?_
          intro hall
          exact absurd (hall d rfl) (not_lt.2 hle)
        · simp only [P2AfterTransition_new, if_neg hp1, hd, if_neg hle]
          refine iff_of_true trivial ?_
          intro d1 hd1
          cases hd1
          exact lt_of_not_le hle

theorem C2_transition_behavior_witness :
    P2AfterTransition_new ⟨false, [1], none, [], some 2, 7, 10, 3, 4, 5, 5⟩
      = (P2Outcome.servedFromQ1 (max ((7 : ℚ) - (3 + 2)) 0), ({} : Delta))
    ∧ (P2AfterTransition_new ⟨false, [1], some 20, [0], none, 7, 10, 3, 4, 1, 5⟩).2.P2P1drop
      = 0 :=
  ⟨((C2_transition_behavior ⟨false, [1], none, [], some 2, 7, 10, 3, 4, 5, 5⟩).1
    (by decide)).1 2 rfl (by norm_num),
   ((C2_transition_behavior ⟨false, [1], some 20, [0], none, 7, 10, 3, 4, 1, 5⟩).2.1
    (by decide)).2.1⟩

/-- Each single call of the mmcc_test.py variant satisfies the conservation
equations and lands in exactly one terminal bucket. -/
theorem conservedOneHot_callStats_test (c : CallEnv) :
    Conserved (callStats_test c) ∧ OneHot (callStats_test c) := by
  rcases c with ⟨free, draw⟩ | e | e
  · cases free <;>
      simp [callStats_test, newCall_test, Conserved, OneHot, NewOutcome.isServed]
  · cases hf : e.free
    · cases hq : CountQueueLength_new e.queueAtQ1Check 1 e.q1Size e.q2Size
      · rcases hd : e.grantDelay with _ | d
        · simp [callStats_test, P1Call_test, hf, hq, hd, Conserved, OneHot,
            P1Outcome.isServed]
        · by_cases hle : d ≤ e.dwellDraw <;>
            simp [callStats_test, P1Call_test, hf, hq, hd, hle, Conserved, OneHot,
              P1Outcome.isServed]
      · simp [callStats_test, P1Call_test, hf, hq, Conserved, OneHot,
          P1Outcome.isServed]
    · simp [callStats_test, P1Call_test, hf, Conserved, OneHot, P1Outcome.isServed]
  · cases hf : e.free
    · cases hq : CountQueueLength_new e.queueAtQ2Check 2 e.q1Size e.q2Size
      · rcases hd : e.q2GrantDelay with _ | d
        · by_cases hp : p1Count e.queueAtTransition < e.q1Size
          · rcases hg : e.q1GrantDelay with _ | d1
            · simp [callStats_test, P2Call_test, P2AfterTransition_test, hf, hq, hd,
                hp, hg, Conserved, OneHot, P2Outcome.isServed]
            · by_cases hle1 : d1 ≤ e.promotedDwellDraw <;>
                simp [callStats_test, P2Call_test, P2AfterTransition_test, hf, hq,
                  hd, hp, hg, hle1, Conserved, OneHot, P2Outcome.isServed]
          · simp [callStats_test, P2Call_test, P2AfterTransition_test, hf, hq, hd,
              hp, Conserved, OneHot, P2Outcome.isServed]
        · by_cases hle : d ≤ e.transitionDraw
          · simp [callStats_test, P2Call_test, hf, hq, hd, hle, Conserved, OneHot,
              P2Outcome.isServed]
          · by_cases hp : p1Count e.queueAtTransition < e.q1Size
            · rcases hg : e.q1GrantDelay with _ | d1
              · simp [callStats_test, P2Call_test, P2AfterTransition_test, hf, hq,
                  hd, hle, hp, hg, Conserved, OneHot, P2Outcome.isServed]
              · by_cases hle1 : d1 ≤ e.promotedDwellDraw <;>
                  simp [callStats_test, P2Call_test, P2AfterTransition_test, hf, hq,
                    hd, hle, hp, hg, hle1, Conserved, OneHot, P2Outcome.isServed]
            · by_cases hle2 : d ≤ e.transitionDraw + max (e.waitDraw - e.transitionDraw) 0 <;>
                simp [callStats_test, P2Call_test, P2AfterTransition_test, hf, hq,
                  hd, hle, hp, hle2, Conserved, OneHot, P2Outcome.isServed]
      · simp [callStats_test, P2Call_test, hf, hq, Conserved, OneHot,
          P2Outcome.isServed]
    · simp [callStats_test, P2Call_test, hf, Conserved, OneHot, P2Outcome.isServed]

/-- The conservation equations are additive. -/
theorem conserved_add {a b : RunStats} (ha : Conserved a) (hb : Conserved b) :
    Conserved (a.add b) := by
  simp only [Conserved, RunStats.add, Delta.add] at *
  omega

theorem conserved_runStats_test (cs : List CallEnv) : Conserved (runStats_test cs) := by
  induction cs with
  | nil => simp [runStats_test, Conserved]
  | cons c cs ih => exact conserved_add (conservedOneHot_callStats_test c).1 ih

/-- Claim C3 (amended): in the mmcc_test.py variant every call increments
exactly one terminal bucket, and over any run the conservation laws hold:
servedNew + BN_call = totalNew, servedP1 + blockedP1 + droppedP1 = totalP1,
servedP2 + blockedP2 + droppedP2 = totalP2, and BH_call counts each handoff
failure exactly once.  The counter attribution, however, is not per-class as
the claim reads it: DP1_call also counts promoted priority-2 calls dropped
from Q1 (and in mmcc_new.py BH_call is never incremented at all and the
promoted drops land in BP1_call). -/
theorem C3_conservation :
    (∀ c : CallEnv, OneHot (callStats_test c))
    ∧ (∀ cs : List CallEnv, Conserved (runStats_test cs)) :=
  ⟨fun c => (conservedOneHot_callStats_test c).2, conserved_runStats_test⟩
